import Mathlib

/-!
Shallow embedding of the AutoMix crossfade engine
(src/js/automixEngine.js) and verification of its specification.

Modelling conventions:
- JavaScript numbers that the engine manipulates arithmetically
  (durations, BPMs, beat timestamps, gain bounds) are embedded as
  rationals; every JavaScript float literal appearing in the source
  (0.03, 0.25, 0.1, 0.0001, 15/1000) is an exact decimal and is
  embedded as the corresponding rational.
- The gain-curve samples involve Math.cos, so curve samples live in
  the reals.
- JavaScript exceptions (TypeError from a property access on
  null/undefined or from Array.prototype.reduce on an empty array
  with no initial value, and failures of the offline audio rendering
  pipeline) are embedded with Except: an exceptional exit of
  startAutoMix carries the engine state at the moment of the throw,
  since the JavaScript exception leaves all mutations made so far in
  place.
- The Web Audio backend (AudioContext, OfflineAudioContext) is
  external to the repository; whether the offline render succeeds is
  an environment oracle, passed as the boolean argument renderOk.
  Scheduling calls made against the backend are recorded as a list of
  Sched events in the engine state.
-/

/-- A decoded audio buffer: channel count, sample rate, duration
(seconds), as read by the engine. -/
structure Buffer where
  numberOfChannels : ℕ
  sampleRate : ℚ
  duration : ℚ
deriving DecidableEq

/-- Analysis attached to a track: bpm and an optional array of beat
timestamps. The beats field is none when the JavaScript property is
null or undefined; note that a present-but-empty array is
some [ ], which is truthy in JavaScript. -/
structure AnalysisResult where
  bpm : ℚ
  beats : Option (List ℚ)
deriving DecidableEq

/-- A track handle: decoded buffer plus optional analysis. -/
structure Track where
  buffer : Buffer
  analysis : Option AnalysisResult
deriving DecidableEq

/-- JavaScript-level failures observable in the engine. -/
inductive JsErr where
  /-- TypeError: property access on null/undefined, or reduce of an
  empty array with no initial value. -/
  | typeError
  /-- The offline rendering pipeline could not be constructed or its
  rendering promise rejected. -/
  | renderError
deriving DecidableEq

/-- Identifiers for the four per-session audio nodes. -/
inductive NodeId where
  | srcA
  | srcB
  | gainA
  | gainB
deriving DecidableEq

/-- One scheduling call committed to the audio backend (or the
bookkeeping timer / animation hand-off). Curve automation records the
parameters the curve was generated from. -/
inductive Sched where
  | setValueAtTime (node : NodeId) (value time : ℚ)
  | setValueCurveAtTime (node : NodeId) (curveStart curveEnd : ℚ)
      (curveLen : ℕ) (time duration : ℚ)
  | startSource (node : NodeId) (time offset : ℚ)
  | setTargetAtTime (node : NodeId) (target startTime timeConstant : ℚ)
  | stopSource (node : NodeId) (time : ℚ)
  | animation (startTime duration : ℚ)
  /-- The setTimeout that clears isMixing, with its delay in ms. -/
  | clearMixingTimer (delayMs : ℚ)
deriving DecidableEq

/-- The mutable state of an AutoMixEngine instance: the isMixing
flag, the four node fields (null until allocated), and the record of
scheduling calls issued to the backend. -/
structure EngineState where
  isMixing : Bool
  sourceNodeA : Option Buffer
  sourceNodeB : Option Buffer
  gainNodeA : Bool
  gainNodeB : Bool
  sched : List Sched
deriving DecidableEq

/-- 15 ms micro-fade constant, this.FADE_TIME. -/
def FADE_TIME : ℚ := 15 / 1000

/-- Number of points in the S-curve, this.CURVE_RESOLUTION. -/
def CURVE_RESOLUTION : ℕ := 512

/-- JavaScript a || b for a possibly-undefined number a: undefined
and 0 are falsy, any other number is truthy. -/
def jsOrNum (a : Option ℚ) (b : ℚ) : ℚ :=
  match a with
  | some v => if v = 0 then b else v
  | none => b

/-- One step of the reduce in calculateBeatAlignedStartOffset:
keep curr only when it is strictly closer to the mix point. -/
def closestStep (mixPoint : ℚ) : ℚ → ℚ → ℚ :=
  fun prev curr => if |curr - mixPoint| < |prev - mixPoint| then curr else prev

/-- outgoingBeats.reduce((prev, curr) => ...) over a non-empty array
x :: xs: fold of closestStep with the first element as accumulator. -/
def closestBeat (mixPoint : ℚ) (x : ℚ) (xs : List ℚ) : ℚ :=
  xs.foldl (closestStep mixPoint) x

/-- calculateBeatAlignedStartOffset(analysisA, analysisB, mixPoint).
The guard tests the four falsy conditions; a present-but-empty beats
array passes the guard, and Array.prototype.reduce with no initial
value then throws a TypeError on the empty outgoing array. -/
def calculateBeatAlignedStartOffset (analysisA analysisB : Option AnalysisResult)
    (mixPoint : ℚ) : Except JsErr ℚ :=
  match analysisA, analysisB with
  | some aA, some aB =>
    match aA.beats, aB.beats with
    | some outgoingBeats, some incomingBeats =>
      match outgoingBeats with
      | [] => .error .typeError
      | x :: xs =>
        let _closestBeatTime := closestBeat mixPoint x xs
        .ok (jsOrNum (incomingBeats.find? (fun beat => decide (beat > 1 / 10)))
              (jsOrNum incomingBeats.head? 0))
    | _, _ => .ok 0
  | _, _ => .ok 0

/-- resampleBufferForTempo(sourceBuffer, analysisA, analysisB).
The OfflineAudioContext length is ceil(newDuration * sampleRate)
frames at the source sample rate; renderOk is the environment oracle
for whether the offline pipeline can be constructed and completes. -/
def resampleBufferForTempo (sourceBuffer : Buffer)
    (analysisA analysisB : AnalysisResult) (renderOk : Bool) :
    Except JsErr Buffer :=
  let tempoRatio := analysisA.bpm / analysisB.bpm
  let newDuration := sourceBuffer.duration / tempoRatio
  if renderOk then
    .ok { numberOfChannels := sourceBuffer.numberOfChannels
          sampleRate := sourceBuffer.sampleRate
          duration := (⌈newDuration * sourceBuffer.sampleRate⌉ : ℚ) / sourceBuffer.sampleRate }
  else
    .error .renderError

/-- The resampling-need predicate named in the specification contract
isResamplingNeeded(bpmA, bpmB); the source duplicates this expression
inline in startAutoMix and simulateMixSession. -/
def isResamplingNeeded (bpmA bpmB : ℚ) : Bool :=
  decide (|bpmA - bpmB| > bpmA * (3 / 100) ∧ |bpmA - bpmB| < bpmA * (25 / 100))

/-- One sample of createSCurveFade: index i of numPoints, with the
direction inferred from endValue > startValue. Start and end values
are the (rational) JavaScript numbers passed in; the sample itself is
real because of Math.cos. -/
noncomputable def sCurveSample (startValue endValue : ℚ) (numPoints i : ℕ) : ℝ :=
  let x : ℝ := (i : ℝ) / ((numPoints : ℝ) - 1)
  let scaledX : ℝ := if endValue > startValue then x else 1 - x
  let y : ℝ := 0.5 * (1 - Real.cos (scaledX * Real.pi))
  (startValue : ℝ) + ((endValue : ℝ) - (startValue : ℝ)) * y

/-- createSCurveFade(startValue, endValue, numPoints): the Float32Array
of numPoints samples. -/
noncomputable def createSCurveFade (startValue endValue : ℚ) (numPoints : ℕ) :
    List ℝ :=
  (List.range numPoints).map (fun i => sCurveSample startValue endValue numPoints i)

/-- The call sites pass a fourth argument to createSCurveFade
(the strings given at lines 90 and 91); the function declares only
three parameters, so JavaScript binds and ignores the extra argument.
This definition embeds such a four-argument call. -/
noncomputable def createSCurveFadeWithDirection (startValue endValue : ℚ)
    (numPoints : ℕ) (direction : String) : List ℝ :=
  (List.range numPoints).map (fun i => sCurveSample startValue endValue numPoints i)

/-- startAutoMix(currentTrack, nextTrack, currentPosition), with the
environment supplied explicitly: crossfadeDuration from
playlistManager.getCrossfadeDuration(), now from
audioContext.currentTime, renderOk the offline-render oracle.
Result: engine state after the call paired with the returned boolean
or the thrown error. -/
def startAutoMix (s : EngineState) (currentTrack nextTrack : Track)
    (currentPosition crossfadeDuration now : ℚ) (renderOk : Bool) :
    EngineState × Except JsErr Bool :=
  if s.isMixing then
    (s, .ok false)
  else
    let s1 : EngineState := { s with isMixing := true }
    let mixPoint := currentTrack.buffer.duration - crossfadeDuration
    let bufferA := currentTrack.buffer
    match currentTrack.analysis, nextTrack.analysis with
    | none, _ => (s1, .error .typeError)
    | some _, none => (s1, .error .typeError)
    | some analysisA, some analysisB =>
      let bpmDifference := |analysisA.bpm - analysisB.bpm|
      match
        (if bpmDifference > analysisA.bpm * (3 / 100) ∧
            bpmDifference < analysisA.bpm * (25 / 100) then
          resampleBufferForTempo nextTrack.buffer analysisA analysisB renderOk
        else
          .ok nextTrack.buffer) with
      | .error e => (s1, .error e)
      | .ok bufferB =>
        match calculateBeatAlignedStartOffset (some analysisA) (some analysisB)
            mixPoint with
        | .error e => (s1, .error e)
        | .ok startTimeB =>
          let mixStartTime := now + (mixPoint - currentPosition)
          if mixStartTime ≤ now then
            ({ s1 with isMixing := false }, .ok false)
          else
            let s2 : EngineState :=
              { s1 with
                sourceNodeA := some bufferA
                sourceNodeB := some bufferB
                gainNodeA := true
                gainNodeB := true
                sched := s1.sched ++
                  [.setValueAtTime .gainA 1 mixStartTime,
                   .setValueCurveAtTime .gainA 1 (1 / 10000) CURVE_RESOLUTION
                     mixStartTime crossfadeDuration,
                   .setValueAtTime .gainB (1 / 10000) mixStartTime,
                   .setValueCurveAtTime .gainB (1 / 10000) 1 CURVE_RESOLUTION
                     mixStartTime crossfadeDuration,
                   .startSource .srcB mixStartTime startTimeB,
                   .setTargetAtTime .gainB 1 mixStartTime FADE_TIME,
                   .setTargetAtTime .gainA 0
                     (mixStartTime + crossfadeDuration - FADE_TIME) FADE_TIME,
                   .stopSource .srcA (mixStartTime + crossfadeDuration),
                   .animation mixStartTime crossfadeDuration,
                   .clearMixingTimer ((mixStartTime - now + crossfadeDuration) * 1000)] }
            (s2, .ok true)

/-- The tempo part of the simulation report. -/
structure TempoReport where
  trackA_BPM : ℚ
  trackB_BPM : ℚ
  resamplingNeeded : Bool
  resampledBPM : Option ℚ
deriving DecidableEq

/-- The beat-alignment part of the simulation report; fields start as
null and may stay none. -/
structure BeatAlignmentReport where
  outgoingBeat : Option ℚ
  incomingBeat : Option ℚ
  finalOffset : Option ℚ
deriving DecidableEq

/-- The structured report built by simulateMixSession. -/
structure SimReport where
  mixPoint : ℚ
  crossfadeDuration : ℚ
  tempo : TempoReport
  beatAlignment : BeatAlignmentReport
deriving DecidableEq

/-- Result value of simulateMixSession: either the early-return error
object (whose message text is the string at line 222 of the source)
or the report. -/
inductive SimOutcome where
  | err
  | report (r : SimReport)
deriving DecidableEq

/-- JavaScript a || b where both operands are possibly-undefined
numbers (line 259 of the source has no trailing default). -/
def jsOrNumOpt (a b : Option ℚ) : Option ℚ :=
  match a with
  | some v => if v = 0 then b else some v
  | none => b

/-- simulateMixSession(currentTrack, nextTrack), with crossfadeDuration
supplied by the playlist collaborator. Line 253 rebuilds analysisB
with the corrected bpm before alignment; line 258 re-runs the reduce,
which throws on a present-but-empty outgoing beats array (that path
is reachable only when the incoming beats field is absent, otherwise
calculateBeatAlignedStartOffset throws first). -/
def simulateMixSession (currentTrack nextTrack : Option Track)
    (crossfadeDuration : ℚ) : Except JsErr SimOutcome :=
  match currentTrack, nextTrack with
  | some cur, some next =>
    match cur.analysis, next.analysis with
    | some analysisA, some analysisB0 =>
      let mixPoint := cur.buffer.duration - crossfadeDuration
      let bpmDifference := |analysisA.bpm - analysisB0.bpm|
      let needed : Bool :=
        if bpmDifference > analysisA.bpm * (3 / 100) ∧
            bpmDifference < analysisA.bpm * (25 / 100) then true else false
      let analysisB : AnalysisResult :=
        if needed then { analysisB0 with bpm := analysisA.bpm } else analysisB0
      match calculateBeatAlignedStartOffset (some analysisA) (some analysisB)
          mixPoint with
      | .error e => .error e
      | .ok offset =>
        match
          (match analysisA.beats with
          | some [] => Except.error JsErr.typeError
          | some (x :: xs) => Except.ok (some (closestBeat mixPoint x xs))
          | none => Except.ok none) with
        | .error e => .error e
        | .ok outgoingBeat =>
          let incomingBeat : Option ℚ :=
            match analysisB.beats with
            | some bs => jsOrNumOpt (bs.find? (fun b => decide (b > 1 / 10))) bs.head?
            | none => none
          .ok (.report
            { mixPoint := mixPoint
              crossfadeDuration := crossfadeDuration
              tempo :=
                { trackA_BPM := analysisA.bpm
                  trackB_BPM := analysisB0.bpm
                  resamplingNeeded := needed
                  resampledBPM := if needed then some analysisA.bpm else none }
              beatAlignment :=
                { outgoingBeat := outgoingBeat
                  incomingBeat := incomingBeat
                  finalOffset := some offset } })
    | _, _ => .ok .err
  | _, _ => .ok .err

/-! ## Lemmas about the gain curve -/

lemma createSCurveFade_getElem? (s e : ℚ) (n i : ℕ) (h : i < n) :
    (createSCurveFade s e n)[i]? = some (sCurveSample s e n i) := by
  simp [createSCurveFade, List.getElem?_range, h]

lemma sCurveSample_out_0 : sCurveSample 1 (1 / 10000) 512 0 = (1 : ℝ) / 10000 := by
  simp only [sCurveSample]
  rw [if_neg (by norm_num)]
  norm_num [Real.cos_pi]

lemma sCurveSample_out_511 : sCurveSample 1 (1 / 10000) 512 511 = 1 := by
  simp only [sCurveSample]
  rw [if_neg (by norm_num)]
  norm_num [Real.cos_zero]

lemma sCurveSample_out3_0 : sCurveSample 1 (1 / 10000) 3 0 = (1 : ℝ) / 10000 := by
  simp only [sCurveSample]
  rw [if_neg (by norm_num)]
  norm_num [Real.cos_pi]

lemma sCurveSample_out3_1 : sCurveSample 1 (1 / 10000) 3 1 = (10001 : ℝ) / 20000 := by
  simp only [sCurveSample]
  rw [if_neg (by norm_num)]
  rw [show (1 - (1 : ℕ) / ((3 : ℕ) - 1 : ℝ)) * Real.pi = Real.pi / 2 by push_cast; ring]
  rw [Real.cos_pi_div_two]
  norm_num

lemma sCurveSample_out3_2 : sCurveSample 1 (1 / 10000) 3 2 = 1 := by
  simp only [sCurveSample]
  rw [if_neg (by norm_num)]
  norm_num [Real.cos_zero]

/-- C1: the claim states that createSCurveFade(1, 0.0001, 512) has
sample 0 equal to 1 and sample 511 equal to 0.0001. The code computes
the opposite: because the fade-out branch replaces x by 1 - x while
the interpolation still runs from startValue to endValue, the curve
is reversed, so sample 0 equals 0.0001 and sample 511 equals 1. -/
theorem claim1_fadeOutCurve_endpoints_inverted :
    (createSCurveFade 1 (1 / 10000) 512)[0]? = some ((1 : ℝ) / 10000) ∧
    (createSCurveFade 1 (1 / 10000) 512)[511]? = some 1 ∧
    ((1 : ℝ) / 10000) ≠ 1 := by
  refine ⟨?_, ?_, by norm_num⟩
  · rw [createSCurveFade_getElem? _ _ _ _ (by norm_num), sCurveSample_out_0]
  · rw [createSCurveFade_getElem? _ _ _ _ (by norm_num), sCurveSample_out_511]

/-- C2: the claim states that a fade-out curve (endValue < startValue)
is monotonically non-increasing. At startValue 1, endValue 0.0001,
numPoints 3, the code returns the strictly increasing sequence
0.0001, 0.50005, 1, so the fade-out direction of the claim fails. -/
theorem claim2_fadeOutCurve_not_nonincreasing :
    createSCurveFade 1 (1 / 10000) 3 =
      [(1 : ℝ) / 10000, (10001 : ℝ) / 20000, 1] ∧
    ¬ List.Chain' (· ≥ ·) (createSCurveFade 1 (1 / 10000) 3) := by
  have h : createSCurveFade 1 (1 / 10000) 3 =
      [(1 : ℝ) / 10000, (10001 : ℝ) / 20000, 1] := by
    rw [createSCurveFade, show List.range 3 = [0, 1, 2] from rfl]
    simp only [List.map]
    rw [sCurveSample_out3_0, sCurveSample_out3_1, sCurveSample_out3_2]
  refine ⟨h, ?_⟩
  rw [h]
  simp only [List.chain'_cons, List.chain'_singleton, and_true]
  intro hcontra
  have := hcontra.1
  norm_num at this

/-- C10: the fourth (direction) argument passed at the call sites is
not a declared parameter of createSCurveFade, so the output is
identical for any two direction values and coincides with the
three-argument result; the direction is inferred solely from the
comparison endValue > startValue inside the function. -/
theorem claim10_direction_argument_ignored :
    ∀ (startValue endValue : ℚ) (numPoints : ℕ) (d1 d2 : String),
      createSCurveFadeWithDirection startValue endValue numPoints d1 =
        createSCurveFadeWithDirection startValue endValue numPoints d2 ∧
      createSCurveFadeWithDirection startValue endValue numPoints d1 =
        createSCurveFade startValue endValue numPoints :=
  fun _ _ _ _ _ => ⟨rfl, rfl⟩

/-! ## Lemmas about beat alignment -/

/-- Characterization of the reduce fold: either the accumulator a
survives and is at least as close as every list element, or the
result is some list element r, strictly closer than a and than every
element before r, and at least as close as every element after r. -/
lemma closestBeat_split (mp : ℚ) : ∀ (xs : List ℚ) (a : ℚ),
    (closestBeat mp a xs = a ∧ ∀ b ∈ xs, |a - mp| ≤ |b - mp|) ∨
    (∃ pre r post, xs = pre ++ r :: post ∧ closestBeat mp a xs = r ∧
      |r - mp| < |a - mp| ∧ (∀ b ∈ pre, |r - mp| < |b - mp|) ∧
      (∀ b ∈ post, |r - mp| ≤ |b - mp|)) := by
  intro xs
  induction xs with
  | nil => intro a; exact Or.inl ⟨rfl, by simp⟩
  | cons c cs ih =>
    intro a
    have hstep : closestBeat mp a (c :: cs) = closestBeat mp (closestStep mp a c) cs := rfl
    by_cases hc : |c - mp| < |a - mp|
    · have hac : closestStep mp a c = c := by simp [closestStep, hc]
      rcases ih c with ⟨heq, hall⟩ | ⟨pre, r, post, hsplit, heq, hlt, hpre, hpost⟩
      · refine Or.inr ⟨[], c, cs, by simp, ?_, hc, by simp, hall⟩
        rw [hstep, hac, heq]
      · refine Or.inr ⟨c :: pre, r, post, by rw [hsplit]; rfl, ?_,
          lt_trans hlt hc, ?_, hpost⟩
        · rw [hstep, hac, heq]
        · intro b hb
          rcases List.mem_cons.mp hb with hb | hb
          · subst hb; exact hlt
          · exact hpre b hb
    · have hac : closestStep mp a c = a := by simp [closestStep, hc]
      have hca : |a - mp| ≤ |c - mp| := le_of_not_lt hc
      rcases ih a with ⟨heq, hall⟩ | ⟨pre, r, post, hsplit, heq, hlt, hpre, hpost⟩
      · refine Or.inl ⟨?_, ?_⟩
        · rw [hstep, hac, heq]
        · intro b hb
          rcases List.mem_cons.mp hb with hb | hb
          · subst hb; exact hca
          · exact hall b hb
      · refine Or.inr ⟨c :: pre, r, post, by rw [hsplit]; rfl, ?_, hlt, ?_, hpost⟩
        · rw [hstep, hac, heq]
        · intro b hb
          rcases List.mem_cons.mp hb with hb | hb
          · subst hb; exact lt_of_lt_of_le hlt hca
          · exact hpre b hb

/-- The reduce applied to a non-empty beats array returns the first
element of minimal absolute distance to the mix point: every earlier
element is strictly farther, every later element no closer. -/
lemma closestBeat_isFirstClosest (mp x : ℚ) (xs : List ℚ) :
    ∃ pre post, x :: xs = pre ++ closestBeat mp x xs :: post ∧
      (∀ b ∈ pre, |closestBeat mp x xs - mp| < |b - mp|) ∧
      (∀ b ∈ post, |closestBeat mp x xs - mp| ≤ |b - mp|) := by
  rcases closestBeat_split mp xs x with ⟨heq, hall⟩ |
    ⟨pre, r, post, hsplit, heq, hlt, hpre, hpost⟩
  · refine ⟨[], xs, ?_, by simp, ?_⟩
    · rw [heq]; rfl
    · rw [heq]; exact hall
  · refine ⟨x :: pre, post, ?_, ?_, ?_⟩
    · rw [heq, hsplit]; rfl
    · intro b hb
      rcases List.mem_cons.mp hb with hb | hb
      · subst hb; rw [heq]; exact hlt
      · rw [heq]; exact hpre b hb
    · intro b hb; rw [heq]; exact hpost b hb

/-- With both beats arrays non-empty, when some incoming beat exceeds
0.1 s the offset is the first such beat. -/
lemma calc_offset_find_some (aA aB : AnalysisResult) (mp x y b : ℚ)
    (xs ys : List ℚ) (hA : aA.beats = some (x :: xs))
    (hB : aB.beats = some (y :: ys))
    (hfind : (y :: ys).find? (fun v => decide (v > 1 / 10)) = some b) :
    calculateBeatAlignedStartOffset (some aA) (some aB) mp = .ok b := by
  have hb0 := List.find?_some hfind
  have hb : b > 1 / 10 := of_decide_eq_true hb0
  have hbne : b ≠ 0 := ne_of_gt (lt_trans (by norm_num) hb)
  simp only [calculateBeatAlignedStartOffset, hA, hB]
  rw [hfind]
  simp [jsOrNum, hbne]

/-- With both beats arrays non-empty, when no incoming beat exceeds
0.1 s the offset falls back to the first incoming beat. -/
lemma calc_offset_find_none (aA aB : AnalysisResult) (mp x y : ℚ)
    (xs ys : List ℚ) (hA : aA.beats = some (x :: xs))
    (hB : aB.beats = some (y :: ys))
    (hfind : (y :: ys).find? (fun v => decide (v > 1 / 10)) = none) :
    calculateBeatAlignedStartOffset (some aA) (some aB) mp = .ok y := by
  simp only [calculateBeatAlignedStartOffset, hA, hB, hfind, jsOrNum]
  by_cases hy : y = 0 <;> simp [hy]

/-- C8: with both beat sequences non-empty, the anchor computed by the
reduce is the outgoing beat of minimal absolute distance to the mix
point with first-encountered tie-break (part 1), the returned offset
is the first incoming beat strictly greater than 0.1 s (part 2),
falling back to the first incoming beat when none exceeds 0.1 s
(part 3); on the example, outgoing beats 10.0, 10.5, 11.0 with mix
point 10.4 anchor to 10.5 (part 4) and incoming beats 0.05, 0.6, 1.2
yield offset 0.6 (part 5). -/
theorem claim8_beat_alignment :
    (∀ (mp x : ℚ) (xs : List ℚ), ∃ pre post,
        x :: xs = pre ++ closestBeat mp x xs :: post ∧
        (∀ b ∈ pre, |closestBeat mp x xs - mp| < |b - mp|) ∧
        (∀ b ∈ post, |closestBeat mp x xs - mp| ≤ |b - mp|)) ∧
    (∀ (aA aB : AnalysisResult) (mp x y b : ℚ) (xs ys : List ℚ),
        aA.beats = some (x :: xs) → aB.beats = some (y :: ys) →
        (y :: ys).find? (fun v => decide (v > 1 / 10)) = some b →
        calculateBeatAlignedStartOffset (some aA) (some aB) mp = .ok b) ∧
    (∀ (aA aB : AnalysisResult) (mp x y : ℚ) (xs ys : List ℚ),
        aA.beats = some (x :: xs) → aB.beats = some (y :: ys) →
        (y :: ys).find? (fun v => decide (v > 1 / 10)) = none →
        calculateBeatAlignedStartOffset (some aA) (some aB) mp = .ok y) ∧
    closestBeat (52 / 5) 10 [21 / 2, 11] = 21 / 2 ∧
    calculateBeatAlignedStartOffset
      (some { bpm := 120, beats := some [10, 21 / 2, 11] })
      (some { bpm := 125, beats := some [1 / 20, 3 / 5, 6 / 5] })
      (52 / 5) = .ok (3 / 5) := by
  refine ⟨closestBeat_isFirstClosest, calc_offset_find_some,
    calc_offset_find_none, ?_, ?_⟩
  · norm_num [closestBeat, closestStep, List.foldl, abs]
  · norm_num [calculateBeatAlignedStartOffset, jsOrNum, List.find?]

/-- Witness for C8: the general parts applied at concrete inputs. -/
theorem claim8_beat_alignment_witness :
    calculateBeatAlignedStartOffset (some { bpm := 120, beats := some [10] })
      (some { bpm := 120, beats := some [2, 3] }) 5 = .ok 2 ∧
    calculateBeatAlignedStartOffset (some { bpm := 120, beats := some [10] })
      (some { bpm := 120, beats := some [1 / 20, 1 / 100] }) 5 = .ok (1 / 20) := by
  constructor
  · exact claim8_beat_alignment.2.1 { bpm := 120, beats := some [10] }
      { bpm := 120, beats := some [2, 3] } 5 10 2 2 [] [3] rfl rfl
      (by norm_num [List.find?])
  · exact claim8_beat_alignment.2.2.1 { bpm := 120, beats := some [10] }
      { bpm := 120, beats := some [1 / 20, 1 / 100] } 5 10 (1 / 20) [] [1 / 100]
      rfl rfl (by norm_num [List.find?])

/-- C4: the claim states that calculateBeatAlignedStartOffset returns
0 whenever either analysis is absent or either beats sequence is
empty, including a present-but-empty outgoing beats array. The code
returns 0 for an absent analysis, an absent beats field, and an empty
incoming array, but a present-but-empty outgoing beats array passes
the falsy guard and the reduce with no initial value then throws a
TypeError. -/
theorem claim4_empty_outgoing_beats_throws :
    calculateBeatAlignedStartOffset (some { bpm := 120, beats := some [] })
      (some { bpm := 120, beats := some [1 / 2] }) 10 = .error .typeError ∧
    calculateBeatAlignedStartOffset none
      (some { bpm := 120, beats := some [1 / 2] }) 10 = .ok 0 ∧
    calculateBeatAlignedStartOffset (some { bpm := 120, beats := some [10] })
      none 10 = .ok 0 ∧
    calculateBeatAlignedStartOffset (some { bpm := 120, beats := none })
      (some { bpm := 120, beats := some [1 / 2] }) 10 = .ok 0 ∧
    calculateBeatAlignedStartOffset (some { bpm := 120, beats := some [10] })
      (some { bpm := 120, beats := none }) 10 = .ok 0 ∧
    calculateBeatAlignedStartOffset (some { bpm := 120, beats := some [10] })
      (some { bpm := 120, beats := some [] }) 10 = .ok 0 :=
  ⟨rfl, rfl, rfl, rfl, rfl, rfl⟩

/-! ## Lemmas about startAutoMix -/

/-- The isMixing guard: an in-progress mix makes startAutoMix return
false with no state change at all. -/
lemma startAutoMix_of_isMixing (s : EngineState) (cur next : Track)
    (pos cf now : ℚ) (rOk : Bool) (h : s.isMixing = true) :
    startAutoMix s cur next pos cf now rOk = (s, .ok false) := by
  simp [startAutoMix, h]

/-- Every exceptional exit of startAutoMix happens after the flag was
set and before any node allocation or scheduling: the state at the
throw is exactly the input state with isMixing set. -/
lemma startAutoMix_error_state (s s' : EngineState) (cur next : Track)
    (pos cf now : ℚ) (rOk : Bool) (e : JsErr)
    (h : startAutoMix s cur next pos cf now rOk = (s', .error e)) :
    s' = { s with isMixing := true } ∧ s.isMixing = false := by
  by_cases hm : s.isMixing
  · rw [startAutoMix_of_isMixing s cur next pos cf now rOk hm] at h
    simp at h
  · have hm' : s.isMixing = false := by simpa using hm
    refine ⟨?_, hm'⟩
    simp only [startAutoMix, hm', Bool.false_eq_true, if_false] at h
    split at h
    · simp only [Prod.mk.injEq] at h; exact h.1.symm
    · simp only [Prod.mk.injEq] at h; exact h.1.symm
    · split at h
      · simp only [Prod.mk.injEq] at h; exact h.1.symm
      · split at h
        · simp only [Prod.mk.injEq] at h; exact h.1.symm
        · split at h
          · simp at h
          · simp at h

/-- When resampling is needed and the offline render fails, the
exception propagates out of startAutoMix with the flag left set. -/
lemma startAutoMix_renderFail (s : EngineState) (cur next : Track)
    (pos cf now : ℚ) (aA aB : AnalysisResult)
    (hm : s.isMixing = false) (hA : cur.analysis = some aA)
    (hB : next.analysis = some aB)
    (hneed : isResamplingNeeded aA.bpm aB.bpm = true) :
    startAutoMix s cur next pos cf now false =
      ({ s with isMixing := true }, .error .renderError) := by
  have hc : |aA.bpm - aB.bpm| > aA.bpm * (3 / 100) ∧
      |aA.bpm - aB.bpm| < aA.bpm * (25 / 100) := of_decide_eq_true hneed
  simp [startAutoMix, hm, hA, hB, hc, resampleBufferForTempo]

/-- When resampling is not needed, the render oracle is never
consulted: the result is independent of it. -/
lemma startAutoMix_renderIndep (s : EngineState) (cur next : Track)
    (pos cf now : ℚ) (aA aB : AnalysisResult) (r1 r2 : Bool)
    (hA : cur.analysis = some aA) (hB : next.analysis = some aB)
    (hno : isResamplingNeeded aA.bpm aB.bpm = false) :
    startAutoMix s cur next pos cf now r1 =
      startAutoMix s cur next pos cf now r2 := by
  have hc : ¬(|aA.bpm - aB.bpm| > aA.bpm * (3 / 100) ∧
      |aA.bpm - aB.bpm| < aA.bpm * (25 / 100)) := of_decide_eq_false hno
  by_cases hm : s.isMixing
  · rw [startAutoMix_of_isMixing s cur next pos cf now r1 hm,
      startAutoMix_of_isMixing s cur next pos cf now r2 hm]
  · have hm' : s.isMixing = false := by simpa using hm
    simp [startAutoMix, hm', hA, hB, hc]

/-- When execution reaches the timing check and the mix point is not
in the future, startAutoMix clears the flag and returns false without
allocating nodes or scheduling anything. -/
lemma startAutoMix_pastTime (s : EngineState) (cur next : Track)
    (pos cf now : ℚ) (rOk : Bool) (aA aB : AnalysisResult) (bufB : Buffer) (off : ℚ)
    (hm : s.isMixing = false) (hA : cur.analysis = some aA)
    (hB : next.analysis = some aB)
    (hres : (if |aA.bpm - aB.bpm| > aA.bpm * (3 / 100) ∧
        |aA.bpm - aB.bpm| < aA.bpm * (25 / 100) then
        resampleBufferForTempo next.buffer aA aB rOk
      else .ok next.buffer) = .ok bufB)
    (hcalc : calculateBeatAlignedStartOffset (some aA) (some aB)
        (cur.buffer.duration - cf) = .ok off)
    (htime : cur.buffer.duration - cf - pos ≤ 0) :
    startAutoMix s cur next pos cf now rOk =
      ({ s with isMixing := false }, .ok false) := by
  have ht : now + (cur.buffer.duration - cf - pos) ≤ now := by linarith
  simp [startAutoMix, hm, hA, hB, hres, hcalc, ht]

/-- C5: while isMixing is set, any call to startAutoMix returns false
immediately and the state is returned unchanged: no flag change, no
node allocation, no scheduling. -/
theorem claim5_concurrent_session_rejected (s : EngineState)
    (cur next : Track) (pos cf now : ℚ) (rOk : Bool)
    (h : s.isMixing = true) :
    startAutoMix s cur next pos cf now rOk = (s, .ok false) :=
  startAutoMix_of_isMixing s cur next pos cf now rOk h

/-- Witness for C5 at a concrete busy state. -/
theorem claim5_concurrent_session_rejected_witness :
    startAutoMix
      { isMixing := true, sourceNodeA := none, sourceNodeB := none,
        gainNodeA := false, gainNodeB := false, sched := [] }
      { buffer := { numberOfChannels := 2, sampleRate := 44100, duration := 200 },
        analysis := some { bpm := 120, beats := some [1] } }
      { buffer := { numberOfChannels := 2, sampleRate := 44100, duration := 180 },
        analysis := some { bpm := 124, beats := some [2] } }
      0 10 5 true =
      ({ isMixing := true, sourceNodeA := none, sourceNodeB := none,
         gainNodeA := false, gainNodeB := false, sched := [] }, .ok false) :=
  claim5_concurrent_session_rejected _ _ _ _ _ _ _ rfl

/-- C9: whenever startAutoMix exits exceptionally, the exit happened
after the guard set isMixing, no node was allocated and nothing was
scheduled (in particular no flag-clearing timer), so isMixing stays
true and every later startAutoMix call returns false with the state
unchanged. -/
theorem claim9_exception_leaves_isMixing_stuck (s s' : EngineState)
    (cur next : Track) (pos cf now : ℚ) (rOk : Bool) (e : JsErr)
    (h : startAutoMix s cur next pos cf now rOk = (s', .error e)) :
    s'.isMixing = true ∧ s'.sched = s.sched ∧
    s'.sourceNodeA = s.sourceNodeA ∧ s'.sourceNodeB = s.sourceNodeB ∧
    s'.gainNodeA = s.gainNodeA ∧ s'.gainNodeB = s.gainNodeB ∧
    (∀ (cur2 next2 : Track) (pos2 cf2 now2 : ℚ) (rOk2 : Bool),
      startAutoMix s' cur2 next2 pos2 cf2 now2 rOk2 = (s', .ok false)) := by
  obtain ⟨hs', _⟩ := startAutoMix_error_state s s' cur next pos cf now rOk e h
  subst hs'
  exact ⟨rfl, rfl, rfl, rfl, rfl, rfl,
    fun cur2 next2 pos2 cf2 now2 rOk2 =>
      startAutoMix_of_isMixing _ cur2 next2 pos2 cf2 now2 rOk2 rfl⟩

/-- Witness for C9: a run that throws because the outgoing analysis
is absent; the flag is then stuck and a second call is rejected. -/
theorem claim9_exception_leaves_isMixing_stuck_witness :
    startAutoMix
      { isMixing := false, sourceNodeA := none, sourceNodeB := none,
        gainNodeA := false, gainNodeB := false, sched := [] }
      { buffer := { numberOfChannels := 2, sampleRate := 48000, duration := 100 },
        analysis := none }
      { buffer := { numberOfChannels := 2, sampleRate := 48000, duration := 90 },
        analysis := some { bpm := 100, beats := some [1] } }
      0 12 3 true =
      ({ isMixing := true, sourceNodeA := none, sourceNodeB := none,
         gainNodeA := false, gainNodeB := false, sched := [] },
       .error .typeError) ∧
    startAutoMix
      { isMixing := true, sourceNodeA := none, sourceNodeB := none,
        gainNodeA := false, gainNodeB := false, sched := [] }
      { buffer := { numberOfChannels := 2, sampleRate := 48000, duration := 100 },
        analysis := none }
      { buffer := { numberOfChannels := 2, sampleRate := 48000, duration := 90 },
        analysis := some { bpm := 100, beats := some [1] } }
      0 12 3 true =
      ({ isMixing := true, sourceNodeA := none, sourceNodeB := none,
         gainNodeA := false, gainNodeB := false, sched := [] }, .ok false) := by
  have h : startAutoMix
      { isMixing := false, sourceNodeA := none, sourceNodeB := none,
        gainNodeA := false, gainNodeB := false, sched := [] }
      { buffer := { numberOfChannels := 2, sampleRate := 48000, duration := 100 },
        analysis := none }
      { buffer := { numberOfChannels := 2, sampleRate := 48000, duration := 90 },
        analysis := some { bpm := 100, beats := some [1] } }
      0 12 3 true =
      ({ isMixing := true, sourceNodeA := none, sourceNodeB := none,
         gainNodeA := false, gainNodeB := false, sched := [] },
       .error .typeError) := rfl
  exact ⟨h, (claim9_exception_leaves_isMixing_stuck _ _ _ _ _ _ _ _ _
    h).2.2.2.2.2.2 _ _ _ _ _ _⟩

/-- C3 (amended): if the offline resampling step fails, startAutoMix
does not fall back to the original buffer: the failure propagates as
an exceptional exit, the returned state keeps isMixing set, and the
mix does not complete. -/
theorem claim3_resample_failure_not_caught (s : EngineState)
    (cur next : Track) (pos cf now : ℚ) (aA aB : AnalysisResult)
    (hm : s.isMixing = false) (hA : cur.analysis = some aA)
    (hB : next.analysis = some aB)
    (hneed : isResamplingNeeded aA.bpm aB.bpm = true) :
    startAutoMix s cur next pos cf now false =
      ({ s with isMixing := true }, .error .renderError) :=
  startAutoMix_renderFail s cur next pos cf now aA aB hm hA hB hneed

/-- Counterexample to C3 as stated: a concrete run where resampling
is needed (120 vs 128 BPM) and the offline render fails; startAutoMix
exits with the render error instead of completing the mix with the
original buffer. -/
theorem claim3_resample_failure_counterexample :
    startAutoMix
      { isMixing := false, sourceNodeA := none, sourceNodeB := none,
        gainNodeA := false, gainNodeB := false, sched := [] }
      { buffer := { numberOfChannels := 2, sampleRate := 44100, duration := 200 },
        analysis := some { bpm := 120, beats := some [1] } }
      { buffer := { numberOfChannels := 2, sampleRate := 44100, duration := 180 },
        analysis := some { bpm := 128, beats := some [1 / 2] } }
      0 10 5 false =
      ({ isMixing := true, sourceNodeA := none, sourceNodeB := none,
         gainNodeA := false, gainNodeB := false, sched := [] },
       .error .renderError) := by
  apply startAutoMix_renderFail <;> try rfl
  norm_num [isResamplingNeeded, abs]

/-- Witness for the amended C3 at a different concrete input. -/
theorem claim3_resample_failure_witness :
    startAutoMix
      { isMixing := false, sourceNodeA := none, sourceNodeB := none,
        gainNodeA := false, gainNodeB := false, sched := [] }
      { buffer := { numberOfChannels := 1, sampleRate := 48000, duration := 300 },
        analysis := some { bpm := 100, beats := some [2] } }
      { buffer := { numberOfChannels := 1, sampleRate := 48000, duration := 250 },
        analysis := some { bpm := 110, beats := some [1] } }
      3 8 2 false =
      ({ isMixing := true, sourceNodeA := none, sourceNodeB := none,
         gainNodeA := false, gainNodeB := false, sched := [] },
       .error .renderError) := by
  apply claim3_resample_failure_not_caught <;> try rfl
  norm_num [isResamplingNeeded, abs]

/-- C6 (amended): provided both analyses are present, resampling is
either not needed or succeeds, and the beat-alignment step does not
throw, then whenever mixPoint - currentPosition is not positive,
startAutoMix returns false, allocates no playback or gain units,
schedules nothing, and clears the in-progress flag. -/
theorem claim6_past_mix_point_aborts (s : EngineState) (cur next : Track)
    (pos cf now off : ℚ) (rOk : Bool) (aA aB : AnalysisResult)
    (hm : s.isMixing = false) (hA : cur.analysis = some aA)
    (hB : next.analysis = some aB)
    (hrender : isResamplingNeeded aA.bpm aB.bpm = true → rOk = true)
    (hcalc : calculateBeatAlignedStartOffset (some aA) (some aB)
        (cur.buffer.duration - cf) = .ok off)
    (htime : cur.buffer.duration - cf - pos ≤ 0) :
    startAutoMix s cur next pos cf now rOk =
      ({ s with isMixing := false }, .ok false) := by
  by_cases hcond : |aA.bpm - aB.bpm| > aA.bpm * (3 / 100) ∧
      |aA.bpm - aB.bpm| < aA.bpm * (25 / 100)
  · have hr : rOk = true := hrender (by simp [isResamplingNeeded, hcond])
    subst hr
    obtain ⟨bufB, hres⟩ : ∃ b, (if |aA.bpm - aB.bpm| > aA.bpm * (3 / 100) ∧
        |aA.bpm - aB.bpm| < aA.bpm * (25 / 100) then
        resampleBufferForTempo next.buffer aA aB true
      else .ok next.buffer) = .ok b := by
      rw [if_pos hcond]
      exact ⟨_, rfl⟩
    exact startAutoMix_pastTime s cur next pos cf now true aA aB bufB off
      hm hA hB hres hcalc htime
  · exact startAutoMix_pastTime s cur next pos cf now rOk aA aB next.buffer off
      hm hA hB (by rw [if_neg hcond]) hcalc htime

/-- Counterexample to C6 as stated: the outgoing track has a
present-but-empty beats array and the mix point is in the past
(duration 5, crossfade 10, position 0, so mixPoint - position = -5);
instead of returning false with the flag cleared, startAutoMix throws
before reaching the timing check and leaves isMixing set. -/
theorem claim6_past_mix_point_counterexample :
    ((5 : ℚ) - 10 - 0 ≤ 0) ∧
    startAutoMix
      { isMixing := false, sourceNodeA := none, sourceNodeB := none,
        gainNodeA := false, gainNodeB := false, sched := [] }
      { buffer := { numberOfChannels := 2, sampleRate := 44100, duration := 5 },
        analysis := some { bpm := 120, beats := some [] } }
      { buffer := { numberOfChannels := 2, sampleRate := 44100, duration := 90 },
        analysis := some { bpm := 120, beats := some [1] } }
      0 10 5 true =
      ({ isMixing := true, sourceNodeA := none, sourceNodeB := none,
         gainNodeA := false, gainNodeB := false, sched := [] },
       .error .typeError) := by
  refine ⟨by norm_num, ?_⟩
  norm_num [startAutoMix, calculateBeatAlignedStartOffset,
    resampleBufferForTempo, abs]

/-- Witness for the amended C6: a concrete aborted run with the flag
cleared and nothing allocated. -/
theorem claim6_past_mix_point_aborts_witness :
    startAutoMix
      { isMixing := false, sourceNodeA := none, sourceNodeB := none,
        gainNodeA := false, gainNodeB := false, sched := [] }
      { buffer := { numberOfChannels := 2, sampleRate := 44100, duration := 5 },
        analysis := some { bpm := 120, beats := some [2] } }
      { buffer := { numberOfChannels := 2, sampleRate := 44100, duration := 90 },
        analysis := some { bpm := 120, beats := some [1] } }
      0 10 5 false =
      ({ isMixing := false, sourceNodeA := none, sourceNodeB := none,
         gainNodeA := false, gainNodeB := false, sched := [] }, .ok false) := by
  refine claim6_past_mix_point_aborts _ _ _ 0 10 5 1 false
    { bpm := 120, beats := some [2] } { bpm := 120, beats := some [1] }
    rfl rfl rfl ?_ ?_ (by norm_num)
  · intro hcontra
    exact absurd hcontra (by norm_num [isResamplingNeeded, abs])
  · norm_num [calculateBeatAlignedStartOffset, jsOrNum, List.find?]

/-- The resamplingNeeded field of a successful simulation report is
exactly the isResamplingNeeded predicate on the two input tempos. -/
lemma sim_resamplingNeeded (cur next : Track) (cf : ℚ)
    (aA aB : AnalysisResult) (r : SimReport)
    (hA : cur.analysis = some aA) (hB : next.analysis = some aB)
    (h : simulateMixSession (some cur) (some next) cf = .ok (.report r)) :
    r.tempo.resamplingNeeded = isResamplingNeeded aA.bpm aB.bpm := by
  simp only [simulateMixSession, hA, hB] at h
  split at h
  · exact absurd h (by simp)
  · split at h
    · exact absurd h (by simp)
    · simp only [Except.ok.injEq, SimOutcome.report.injEq] at h
      subst h
      by_cases hcond : |aA.bpm - aB.bpm| > aA.bpm * (3 / 100) ∧
          |aA.bpm - aB.bpm| < aA.bpm * (25 / 100)
      · simp [isResamplingNeeded, hcond]
      · simp [isResamplingNeeded, hcond]

/-- C7: the resampling decision is exactly
0.03 * bpmA < |bpmA - bpmB| < 0.25 * bpmA (part 2); it is false for
(120, 123.5), true for (120, 128), false for (120, 155) (part 1);
simulateMixSession reports exactly this predicate (part 3); and
startAutoMix applies the same predicate: when the predicate holds a
failing render is consulted and aborts the call, and when it does not
hold the render oracle is never consulted (part 4). -/
theorem claim7_resampling_predicate :
    (isResamplingNeeded 120 (247 / 2) = false ∧
     isResamplingNeeded 120 128 = true ∧
     isResamplingNeeded 120 155 = false) ∧
    (∀ bpmA bpmB : ℚ, isResamplingNeeded bpmA bpmB = true ↔
        (|bpmA - bpmB| > bpmA * (3 / 100) ∧ |bpmA - bpmB| < bpmA * (25 / 100))) ∧
    (∀ (cur next : Track) (cf : ℚ) (aA aB : AnalysisResult) (r : SimReport),
        cur.analysis = some aA → next.analysis = some aB →
        simulateMixSession (some cur) (some next) cf = .ok (.report r) →
        r.tempo.resamplingNeeded = isResamplingNeeded aA.bpm aB.bpm) ∧
    (∀ (s : EngineState) (cur next : Track) (pos cf now : ℚ)
        (aA aB : AnalysisResult),
        s.isMixing = false → cur.analysis = some aA → next.analysis = some aB →
        (isResamplingNeeded aA.bpm aB.bpm = true →
          startAutoMix s cur next pos cf now false =
            ({ s with isMixing := true }, .error .renderError)) ∧
        (isResamplingNeeded aA.bpm aB.bpm = false → ∀ r1 r2 : Bool,
          startAutoMix s cur next pos cf now r1 =
            startAutoMix s cur next pos cf now r2)) := by
  refine ⟨⟨?_, ?_, ?_⟩, ?_, sim_resamplingNeeded, ?_⟩
  · norm_num [isResamplingNeeded, abs]
  · norm_num [isResamplingNeeded, abs]
  · norm_num [isResamplingNeeded, abs]
  · intro bpmA bpmB
    simp [isResamplingNeeded]
  · intro s cur next pos cf now aA aB hm hA hB
    exact ⟨startAutoMix_renderFail s cur next pos cf now aA aB hm hA hB,
      fun hno r1 r2 => startAutoMix_renderIndep s cur next pos cf now
        aA aB r1 r2 hA hB hno⟩

/-- Witness for C7: the simulate part on a concrete 120 vs 128 BPM
pair and the startAutoMix part on a concrete 90 vs 99 BPM pair. -/
theorem claim7_resampling_predicate_witness :
    ({ mixPoint := (190 : ℚ), crossfadeDuration := 10,
       tempo := { trackA_BPM := 120, trackB_BPM := 128,
                  resamplingNeeded := true, resampledBPM := some 120 },
       beatAlignment := { outgoingBeat := some 1, incomingBeat := some (1 / 2),
                          finalOffset := some (1 / 2) } } : SimReport).tempo.resamplingNeeded =
      isResamplingNeeded 120 128 ∧
    startAutoMix
      { isMixing := false, sourceNodeA := none, sourceNodeB := none,
        gainNodeA := false, gainNodeB := false, sched := [] }
      { buffer := { numberOfChannels := 1, sampleRate := 22050, duration := 150 },
        analysis := some { bpm := 90, beats := some [3] } }
      { buffer := { numberOfChannels := 1, sampleRate := 22050, duration := 140 },
        analysis := some { bpm := 99, beats := some [2] } }
      1 7 2 false =
      ({ isMixing := true, sourceNodeA := none, sourceNodeB := none,
         gainNodeA := false, gainNodeB := false, sched := [] },
       .error .renderError) := by
  constructor
  · exact claim7_resampling_predicate.2.2.1
      { buffer := { numberOfChannels := 2, sampleRate := 44100, duration := 200 },
        analysis := some { bpm := 120, beats := some [1] } }
      { buffer := { numberOfChannels := 2, sampleRate := 44100, duration := 180 },
        analysis := some { bpm := 128, beats := some [1 / 2] } }
      10 { bpm := 120, beats := some [1] } { bpm := 128, beats := some [1 / 2] }
      _ rfl rfl
      (by norm_num [simulateMixSession, calculateBeatAlignedStartOffset,
        jsOrNum, jsOrNumOpt, closestBeat, closestStep, List.find?,
        List.foldl, abs])
  · exact (claim7_resampling_predicate.2.2.2 _ _ _ 1 7 2
      { bpm := 90, beats := some [3] } { bpm := 99, beats := some [2] }
      rfl rfl rfl).1 (by norm_num [isResamplingNeeded, abs])
